import Mathlib

/-!
Verification of the ASCII/native input-mode decision engine
(`src/rime/gear/ascii_composer.cc`).

The C++ file is embedded shallowly: the processor's mutable fields become a
`AsciiComposer` record, the engine context becomes a `Context` record, and each
C++ member function becomes a Lean function threading the state explicitly.
External collaborators (the composition engine's context operations) are
modelled from the spec where their code is not part of this repository.
-/

namespace Rime

/-- X keysym codes used by `ascii_composer.cc` (values from X11 keysymdef). -/
def XK_space : Nat := 0x20

def XK_asciitilde : Nat := 0x7e

def XK_a : Nat := 0x61

def XK_z : Nat := 0x7a

def XK_BackSpace : Nat := 0xff08

def XK_Return : Nat := 0xff0d

def XK_Delete : Nat := 0xffff

def XK_Eisu_toggle : Nat := 0xff2f

def XK_Shift_L : Nat := 0xffe1

def XK_Shift_R : Nat := 0xffe2

def XK_Control_L : Nat := 0xffe3

def XK_Control_R : Nat := 0xffe4

def XK_Caps_Lock : Nat := 0xffe5

/-- `ProcessResult` from `rime/processor.h`: decision returned per key event. -/
inductive ProcessResult where
  | kRejected
  | kAccepted
  | kNoop
deriving DecidableEq

/-- `AsciiModeSwitchStyle` from `ascii_composer.h`. -/
inductive AsciiModeSwitchStyle where
  | kAsciiModeSwitchNoop
  | kAsciiModeSwitchInline
  | kAsciiModeSwitchCommitText
  | kAsciiModeSwitchCommitCode
  | kAsciiModeSwitchClear
deriving DecidableEq

open ProcessResult AsciiModeSwitchStyle

/-- `KeyEvent`: keycode plus modifier flags, one value per physical transition. -/
structure KeyEvent where
  keycode : Nat
  release : Bool
  shift : Bool
  ctrl : Bool
  alt : Bool
  super : Bool
  caps : Bool
deriving DecidableEq

/-- The engine `Context` state visible to this component: the two named boolean
options, the composing flag, the inline input buffer, and the commit history
(a list of committed segments, most recent first; characters as keysym codes). -/
structure Context where
  ascii_mode : Bool
  temp_ascii : Bool
  composing : Bool
  input : List Nat
  commit_history : List (List Nat)
deriving DecidableEq

/-- Modelled from the spec: `commit_history().latest_text()` returns the most
recently committed text segment, or the empty string when there is none. -/
def Context.latest_text (ctx : Context) : List Nat :=
  ctx.commit_history.headD []

/-- Modelled from the spec: `Context::PushInput` appends a character to the
in-progress inline edit buffer. -/
def Context.PushInput (ctx : Context) (ch : Nat) : Context :=
  { ctx with input := ctx.input ++ [ch] }

/-- Modelled from the spec: `Context::Clear` discards the composition. -/
def Context.Clear (ctx : Context) : Context :=
  { ctx with composing := false, input := [] }

/-- Modelled from the spec: `Context::ConfirmCurrentSelection` confirms the
current selection as-is; the composition itself remains in progress. -/
def Context.ConfirmCurrentSelection (ctx : Context) : Context :=
  ctx

/-- Modelled from the spec: `Context::ClearNonConfirmedComposition` discards the
unconfirmed tail of the composition; the fields tracked here are unchanged. -/
def Context.ClearNonConfirmedComposition (ctx : Context) : Context :=
  ctx

/-- Modelled from the spec: `Context::Commit` finalizes the composition; the
committed text is recorded in the commit history and the composition ends. -/
def Context.Commit (ctx : Context) : Context :=
  { ctx with
      composing := false
      input := []
      commit_history := ctx.input :: ctx.commit_history }

/-- The mutable fields of `AsciiComposer` (see `ascii_composer.h` and the
constructor/`LoadConfig`): bindings table, cached caps-lock style, the two
config booleans, the modifier-tap tracker and its deadline, and whether the
inline-conversion update subscription is currently connected. -/
structure AsciiComposer where
  bindings : List (Nat × AsciiModeSwitchStyle)
  caps_lock_switch_style : AsciiModeSwitchStyle
  good_old_caps_lock : Bool
  toggle_with_caps : Bool
  shift_key_pressed : Bool
  ctrl_key_pressed : Bool
  toggle_expired : Nat
  connected : Bool
deriving DecidableEq

/-- Whole-machine state: the composer's own fields, the engine context, and the
texts sent to the direct-commit sink (`engine_->CommitText`). -/
structure AsciiComposerState where
  self : AsciiComposer
  ctx : Context
  output : List (List Nat)
deriving DecidableEq

/-- Lookup in the bindings map (`bindings_.find(key_code)`); entries inserted
later shadow earlier ones, matching `std::map::operator[]` overwrite. -/
def bindingsFind (bindings : List (Nat × AsciiModeSwitchStyle)) (key_code : Nat) :
    Option AsciiModeSwitchStyle :=
  (bindings.find? (fun b => b.1 == key_code)).map (fun b => b.2)

/-- The fixed style-name table `ascii_mode_switch_styles`: the scan stops at the
first matching repr and falls through to `kAsciiModeSwitchNoop` (the NULL row)
for unrecognized names, including the literal "noop". -/
def styleFromRepr (s : String) : AsciiModeSwitchStyle :=
  if s = "inline_ascii" then kAsciiModeSwitchInline
  else if s = "commit_text" then kAsciiModeSwitchCommitText
  else if s = "commit_code" then kAsciiModeSwitchCommitCode
  else if s = "clear" then kAsciiModeSwitchClear
  else kAsciiModeSwitchNoop

/-- One entry of the `switch_key` config map: the key string and, when the node
is a `ConfigValue` (as `As<ConfigValue>` checks), its string value. -/
structure ConfigEntry where
  key : String
  value : Option String
deriving DecidableEq

/-- `load_bindings` (lines 28-49): for each map entry, skip non-value nodes,
skip unrecognized/"noop" style names, parse the key string (the parser is the
external `KeyEvent::Parse`, passed as a function returning keycode and modifier
mask), skip parse failures and any nonzero modifier mask, otherwise store the
binding. -/
def load_bindings (parse : String → Option (Nat × Nat)) :
    List ConfigEntry → List (Nat × AsciiModeSwitchStyle) →
    List (Nat × AsciiModeSwitchStyle)
  | [], dest => dest
  | e :: rest, dest =>
    match e.value with
    | none => load_bindings parse rest dest
    | some v =>
      let style := styleFromRepr v
      if style = kAsciiModeSwitchNoop then
        load_bindings parse rest dest
      else
        match parse e.key with
        | none => load_bindings parse rest dest
        | some km =>
          if km.2 ≠ 0 then
            load_bindings parse rest dest
          else
            load_bindings parse rest ((km.1, style) :: dest)

/-- `TempAsciiOff` (lines 77-80): clear the `temp_ascii` option and the commit
history. -/
def TempAsciiOff (ctx : Context) : Context :=
  { ctx with temp_ascii := false, commit_history := [] }

/-- `TempAsciiOn` (lines 84-87): set the `temp_ascii` option and clear the
commit history. -/
def TempAsciiOn (ctx : Context) : Context :=
  { ctx with temp_ascii := true, commit_history := [] }

/-- `MayProcessTransform` (lines 90-124): mandatory transform triggers in both
modes, plus the optional set checked only with `optional = true`. -/
def MayProcessTransform (ch : Nat) (optional : Bool) : Bool :=
  if ch = 0x2c ∨ ch = 0x5e ∨ ch = 0x5c ∨ ch = 0x22 ∨ ch = 0x21 ∨ ch = 0x3f ∨
      ch = 0x3b then
    true
  else if optional ∧ (ch = 0x2e ∨ ch = 0x27 ∨ ch = 0x3c ∨ ch = 0x3e ∨
      ch = 0x3a ∨ ch = 0x28 ∨ ch = 0x29 ∨ ch = 0x5b ∨ ch = 0x5d ∨
      ch = 0x7b ∨ ch = 0x7d) then
    true
  else
    false

/-- `IsPrintable` (lines 127-129): visible ASCII range, space through tilde. -/
def IsPrintable (ch : Nat) : Bool :=
  decide (XK_space ≤ ch ∧ ch ≤ XK_asciitilde)

/-- `IsLower` (lines 131-133): ASCII a-z. -/
def IsLower (ch : Nat) : Bool :=
  decide (XK_a ≤ ch ∧ ch ≤ XK_z)

/-- `TempAsciiProcess` (lines 135-181): the temporary-ASCII state machine,
returning the decision and the updated context. -/
def TempAsciiProcess (ctx : Context) (key_event : KeyEvent) :
    ProcessResult × Context :=
  let ch := key_event.keycode
  if key_event.release ∨ ch = XK_BackSpace ∨ ch = XK_Delete then
    (kNoop, ctx)
  else
    let composing := ctx.composing
    if ¬composing ∧ ch = XK_space ∧ key_event.shift then
      (kNoop, ctx)
    else if ctx.temp_ascii then
      if composing then
        (kNoop, ctx)
      else if ch = XK_space ∨ ¬IsPrintable ch ∨ MayProcessTransform ch false then
        (kNoop, TempAsciiOff ctx)
      else
        (kRejected, ctx)
    else if composing then
      if ch = XK_Return ∧ ctx.latest_text.all (fun c => IsPrintable c) then
        (kNoop, TempAsciiOn ctx)
      else
        (kNoop, ctx)
    else if IsLower ch ∨ ¬IsPrintable ch ∨ MayProcessTransform ch true then
      (kNoop, ctx)
    else
      (kRejected, TempAsciiOn ctx)

/-- `SwitchAsciiMode` (lines 343-368): while composing, cancel any installed
update subscription, apply the style's side effect (Inline re-subscribes only
when switching into ascii mode), then set the `ascii_mode` option
unconditionally. -/
def SwitchAsciiMode (ascii_mode : Bool) (style : AsciiModeSwitchStyle)
    (s : AsciiComposerState) : AsciiComposerState :=
  if s.ctx.composing then
    let s1 : AsciiComposerState := { s with self.connected := false }
    let s2 : AsciiComposerState :=
      if style = kAsciiModeSwitchInline then
        if ascii_mode then { s1 with self.connected := true } else s1
      else if style = kAsciiModeSwitchCommitText then
        { s1 with ctx := s1.ctx.ConfirmCurrentSelection }
      else if style = kAsciiModeSwitchCommitCode then
        { s1 with ctx := (s1.ctx.ClearNonConfirmedComposition).Commit }
      else if style = kAsciiModeSwitchClear then
        { s1 with ctx := s1.ctx.Clear }
      else
        s1
    { s2 with ctx.ascii_mode := ascii_mode }
  else
    { s with ctx.ascii_mode := ascii_mode }

/-- `OnContextUpdate` (lines 370-376): the inline-conversion subscription
callback; once the composition is empty it disconnects itself and quits
temporary ascii mode by forcing `ascii_mode` back to false. -/
def OnContextUpdate (s : AsciiComposerState) : AsciiComposerState :=
  if ¬s.ctx.composing then
    { s with self.connected := false, ctx.ascii_mode := false }
  else
    s

/-- `ToggleAsciiModeWithKey` (lines 331-341): look up the binding for the key
code; when present, switch to the negated `ascii_mode` with the bound style and
record whether caps lock caused the toggle. -/
def ToggleAsciiModeWithKey (key_code : Nat) (s : AsciiComposerState) :
    Bool × AsciiComposerState :=
  match bindingsFind s.self.bindings key_code with
  | none => (false, s)
  | some style =>
    let ascii_mode := !s.ctx.ascii_mode
    let s1 := SwitchAsciiMode ascii_mode style s
    (true, { s1 with self.toggle_with_caps := key_code == XK_Caps_Lock })

/-- C `isascii`: 0..127. -/
def isascii (ch : Nat) : Bool :=
  decide (ch < 0x80)

/-- C `isalpha` (C locale): ASCII letters. -/
def isalpha (ch : Nat) : Bool :=
  decide ((0x41 ≤ ch ∧ ch ≤ 0x5a) ∨ (0x61 ≤ ch ∧ ch ≤ 0x7a))

/-- C `islower` (C locale): ASCII a-z. -/
def islower (ch : Nat) : Bool :=
  decide (0x61 ≤ ch ∧ ch ≤ 0x7a)

/-- C `isupper` (C locale): ASCII A-Z. -/
def isupper (ch : Nat) : Bool :=
  decide (0x41 ≤ ch ∧ ch ≤ 0x5a)

/-- C `toupper` on an ASCII lowercase letter. -/
def toupper (ch : Nat) : Nat :=
  ch - 0x20

/-- C `tolower` on an ASCII uppercase letter. -/
def tolower (ch : Nat) : Nat :=
  ch + 0x20

/-- `AsciiComposer::ProcessCapsLock` (lines 255-295). -/
def ProcessCapsLock (key_event : KeyEvent) (s : AsciiComposerState) :
    ProcessResult × AsciiComposerState :=
  let ch := key_event.keycode
  if ch = XK_Caps_Lock then
    if ¬key_event.release then
      let s1 : AsciiComposerState :=
        { s with self.shift_key_pressed := false, self.ctrl_key_pressed := false }
      if s1.self.good_old_caps_lock ∧ ¬s1.self.toggle_with_caps ∧
          s1.ctx.ascii_mode then
        (kRejected, s1)
      else
        let s2 : AsciiComposerState :=
          { s1 with self.toggle_with_caps := !key_event.caps }
        (kAccepted,
          SwitchAsciiMode (!key_event.caps) s2.self.caps_lock_switch_style s2)
    else
      (kRejected, s)
  else if key_event.caps then
    if ¬s.self.good_old_caps_lock ∧ ¬key_event.release ∧ ¬key_event.ctrl ∧
        isascii ch ∧ isalpha ch then
      let ch2 :=
        if islower ch then toupper ch
        else if isupper ch then tolower ch
        else ch
      (kAccepted, { s with output := s.output ++ [[ch2]] })
    else
      (kRejected, s)
  else
    (kNoop, s)

/-- `AsciiComposer::ProcessKeyEvent` (lines 183-253); `now` is the value
`std::chrono::steady_clock::now()` would return during this call, in
milliseconds. -/
def ProcessKeyEvent (now : Nat) (key_event : KeyEvent)
    (s0 : AsciiComposerState) : ProcessResult × AsciiComposerState :=
  if (key_event.shift ∧ key_event.ctrl) ∨ key_event.alt ∨ key_event.super then
    (kNoop,
      { s0 with
          self.shift_key_pressed := false
          self.ctrl_key_pressed := false
          ctx := TempAsciiOff s0.ctx })
  else
    let capsStep :=
      if s0.self.caps_lock_switch_style ≠ kAsciiModeSwitchNoop then
        ProcessCapsLock key_event s0
      else
        (kNoop, s0)
    if capsStep.1 ≠ kNoop then
      capsStep
    else
      let s := capsStep.2
      let ch := key_event.keycode
      if ch = XK_Eisu_toggle then
        if ¬key_event.release then
          let s1 : AsciiComposerState :=
            { s with
                self.shift_key_pressed := false
                self.ctrl_key_pressed := false }
          (kAccepted, (ToggleAsciiModeWithKey ch s1).2)
        else
          (kRejected, s)
      else
        let is_shift := ch = XK_Shift_L ∨ ch = XK_Shift_R
        let is_ctrl := ch = XK_Control_L ∨ ch = XK_Control_R
        if is_shift ∨ is_ctrl then
          if key_event.release then
            if s.self.shift_key_pressed ∨ s.self.ctrl_key_pressed then
              let s1 :=
                if ((is_shift ∧ s.self.shift_key_pressed) ∨
                    (is_ctrl ∧ s.self.ctrl_key_pressed)) ∧
                    now < s.self.toggle_expired then
                  let s2 : AsciiComposerState := { s with ctx := TempAsciiOff s.ctx }
                  if ch = XK_Shift_R then
                    SwitchAsciiMode false kAsciiModeSwitchNoop s2
                  else
                    (ToggleAsciiModeWithKey ch s2).2
                else
                  s
              (kNoop,
                { s1 with
                    self.shift_key_pressed := false
                    self.ctrl_key_pressed := false })
            else
              (kNoop, s)
          else if ¬(s.self.shift_key_pressed ∨ s.self.ctrl_key_pressed) then
            let s1 : AsciiComposerState :=
              if is_shift then
                { s with self.shift_key_pressed := true }
              else
                { s with
                    ctx := TempAsciiOff s.ctx
                    self.ctrl_key_pressed := true }
            (kNoop, { s1 with self.toggle_expired := now + 500 })
          else
            (kNoop, s)
        else
          let s1 : AsciiComposerState :=
            { s with
                self.shift_key_pressed := false
                self.ctrl_key_pressed := false }
          if s1.ctx.ascii_mode then
            if ¬s1.ctx.composing then
              (kRejected, s1)
            else if ¬key_event.release ∧ 0x20 ≤ ch ∧ ch < 0x80 then
              (kAccepted, { s1 with ctx := s1.ctx.PushInput ch })
            else
              let r := TempAsciiProcess s1.ctx key_event
              (r.1, { s1 with ctx := r.2 })
          else
            let r := TempAsciiProcess s1.ctx key_event
            (r.1, { s1 with ctx := r.2 })

/-- Spec-side predicate for claim C8: a table entry for key code `k` with style
`st` is justified by some config entry that names a recognized, non-noop style
and whose key string parses with a zero modifier mask to `k`. -/
def GoodBinding (parse : String → Option (Nat × Nat)) (entries : List ConfigEntry)
    (k : Nat) (st : AsciiModeSwitchStyle) : Prop :=
  st ≠ kAsciiModeSwitchNoop ∧
    ∃ e ∈ entries, ∃ v, e.value = some v ∧ styleFromRepr v = st ∧
      parse e.key = some (k, 0)

/-- A key event that is not the caps-lock key and carries no caps modifier flag
passes through `ProcessCapsLock` untouched. -/
theorem ProcessCapsLock_passthrough (ke : KeyEvent) (s : AsciiComposerState)
    (h1 : ke.caps = false) (h2 : ke.keycode ≠ XK_Caps_Lock) :
    ProcessCapsLock ke s = (kNoop, s) := by
  simp [ProcessCapsLock, h1, h2]

/-- C5: while `temp_ascii` is on and the context is composing, every
non-release, non-backspace/delete key event yields `kNoop` and leaves the
context (options, commit history) unchanged. -/
theorem tempAscii_on_composing_ignores (ctx : Context) (ke : KeyEvent)
    (h1 : ctx.temp_ascii = true) (h2 : ctx.composing = true)
    (h3 : ke.release = false) (h4 : ke.keycode ≠ XK_BackSpace)
    (h5 : ke.keycode ≠ XK_Delete) :
    TempAsciiProcess ctx ke = (kNoop, ctx) := by
  simp [TempAsciiProcess, h1, h2, h3, h4, h5]

/-- C5 witness: a concrete Return press while composing with `temp_ascii` on. -/
theorem tempAscii_on_composing_ignores_witness :
    TempAsciiProcess ⟨false, true, true, [], [[0x61]]⟩
      ⟨XK_Return, false, false, false, false, false, false⟩ =
      (kNoop, ⟨false, true, true, [], [[0x61]]⟩) :=
  tempAscii_on_composing_ignores ⟨false, true, true, [], [[0x61]]⟩
    ⟨XK_Return, false, false, false, false, false, false⟩
    (by decide) (by decide) (by decide) (by decide) (by decide)

/-- C6: while `temp_ascii` is off and not composing, a non-release press other
than backspace/delete and other than space-with-shift is ignored exactly when
it is a lowercase letter, a non-printable key, or an optional or mandatory
transform trigger; any other key enters temporary ascii and is rejected. -/
theorem tempAscii_off_idle_classification (ctx : Context) (ke : KeyEvent)
    (h1 : ctx.temp_ascii = false) (h2 : ctx.composing = false)
    (h3 : ke.release = false) (h4 : ke.keycode ≠ XK_BackSpace)
    (h5 : ke.keycode ≠ XK_Delete)
    (h6 : ¬(ke.keycode = XK_space ∧ ke.shift = true)) :
    TempAsciiProcess ctx ke =
      if IsLower ke.keycode ∨ ¬IsPrintable ke.keycode ∨
          MayProcessTransform ke.keycode true then
        (kNoop, ctx)
      else
        (kRejected, TempAsciiOn ctx) := by
  have hbs : ¬(ke.keycode = XK_BackSpace ∨ ke.keycode = XK_Delete) := by
    rintro (h | h)
    · exact h4 h
    · exact h5 h
  simp only [TempAsciiProcess, h1, h2, h3, Bool.false_eq_true, false_or,
    not_false_iff, true_and, if_neg hbs, if_neg h6, if_false]

/-- C6 witness: the mandatory trigger `"` (0x22) passes through without
entering temporary ascii. -/
theorem tempAscii_off_idle_classification_witness :
    TempAsciiProcess ⟨false, false, false, [], []⟩
      ⟨0x22, false, true, false, false, false, false⟩ =
      (kNoop, ⟨false, false, false, [], []⟩) := by
  have h := tempAscii_off_idle_classification ⟨false, false, false, [], []⟩
    ⟨0x22, false, true, false, false, false, false⟩
    (by decide) (by decide) (by decide) (by decide) (by decide) (by decide)
  rw [h]
  decide

/-- C7: the two temp-ascii transition helpers set the option and clear the
commit history, and any change of `temp_ascii` made by the temporary-ASCII
machine leaves the commit history cleared. -/
theorem tempAscii_transitions_clear_history (ctx : Context) (ke : KeyEvent) :
    ((TempAsciiOn ctx).temp_ascii = true ∧ (TempAsciiOn ctx).commit_history = []) ∧
    ((TempAsciiOff ctx).temp_ascii = false ∧
      (TempAsciiOff ctx).commit_history = []) ∧
    ((TempAsciiProcess ctx ke).2.temp_ascii ≠ ctx.temp_ascii →
      (TempAsciiProcess ctx ke).2.commit_history = []) := by
  refine ⟨⟨rfl, rfl⟩, ⟨rfl, rfl⟩, ?_⟩
  simp only [TempAsciiProcess]
  split
  · simp
  · split
    · simp
    · split
      · split
        · simp
        · split
          · intro _
            rfl
          · simp
      · split
        · split
          · intro _
            rfl
          · simp
        · split
          · simp
          · intro _
            rfl

/-- C7 witness: a concrete uppercase press enters temporary ascii and the
commit history comes out empty. -/
theorem tempAscii_transitions_clear_history_witness :
    (TempAsciiProcess ⟨false, false, false, [], [[0x61]]⟩
      ⟨0x41, false, true, false, false, false, false⟩).2.commit_history = [] :=
  (tempAscii_transitions_clear_history ⟨false, false, false, [], [[0x61]]⟩
    ⟨0x41, false, true, false, false, false, false⟩).2.2 (by decide)

/-- C9: with `temp_ascii` off, composing, a non-release Enter press, and an
empty latest commit text, the machine enters temporary ascii (the all-printable
check holds vacuously). -/
theorem return_empty_history_enters_tempAscii (ctx : Context) (ke : KeyEvent)
    (h1 : ctx.temp_ascii = false) (h2 : ctx.composing = true)
    (h3 : ke.release = false) (h4 : ke.keycode = XK_Return)
    (h5 : ctx.latest_text = []) :
    TempAsciiProcess ctx ke = (kNoop, TempAsciiOn ctx) ∧
      (TempAsciiOn ctx).temp_ascii = true := by
  refine ⟨?_, rfl⟩
  simp [TempAsciiProcess, h1, h2, h3, h4, h5, XK_Return, XK_BackSpace,
    XK_Delete, XK_space]

/-- C9 witness: concrete composing context with empty commit history. -/
theorem return_empty_history_enters_tempAscii_witness :
    TempAsciiProcess ⟨false, false, true, [0x61], []⟩
      ⟨XK_Return, false, false, false, false, false, false⟩ =
      (kNoop, TempAsciiOn ⟨false, false, true, [0x61], []⟩) :=
  (return_empty_history_enters_tempAscii ⟨false, false, true, [0x61], []⟩
    ⟨XK_Return, false, false, false, false, false, false⟩
    (by decide) (by decide) (by decide) (by decide) (by decide)).1

/-- C2 counterexample: switching with the InlineAscii style while composing and
with target `ascii_mode = false` does NOT install a new subscription — the
previously installed one is cancelled and nothing replaces it, refuting the
claim that a new subscription is installed for either target value. -/
theorem inline_switch_off_no_subscription :
    (SwitchAsciiMode false kAsciiModeSwitchInline
      ⟨⟨[], kAsciiModeSwitchNoop, false, false, false, false, 0, true⟩,
        ⟨true, false, true, [0x61], []⟩, []⟩).self.connected = false := by
  decide

/-- C2 amended: with the InlineAscii style while composing, the previously
installed subscription is cancelled and a new one is installed exactly when the
target `ascii_mode` is true; the installed callback, on an update notification
in which the composition has become empty, forces `ascii_mode` to false and
cancels itself. -/
theorem inline_switch_subscription (s : AsciiComposerState) (a : Bool)
    (h : s.ctx.composing = true) :
    (SwitchAsciiMode a kAsciiModeSwitchInline s).self.connected = a ∧
    (SwitchAsciiMode a kAsciiModeSwitchInline s).ctx.ascii_mode = a ∧
    (∀ s2 : AsciiComposerState, s2.ctx.composing = false →
      (OnContextUpdate s2).ctx.ascii_mode = false ∧
        (OnContextUpdate s2).self.connected = false) := by
  refine ⟨?_, ?_, ?_⟩
  · cases a <;> simp [SwitchAsciiMode, h]
  · cases a <;> simp [SwitchAsciiMode, h]
  · intro s2 h2
    simp [OnContextUpdate, h2]

/-- C2 amended witness: a concrete composing state switched into ascii mode
installs the subscription, and the callback on an empty composition clears
`ascii_mode` and the subscription. -/
theorem inline_switch_subscription_witness :
    (SwitchAsciiMode true kAsciiModeSwitchInline
      ⟨⟨[], kAsciiModeSwitchNoop, false, false, false, false, 0, false⟩,
        ⟨false, false, true, [0x61], []⟩, []⟩).self.connected = true ∧
    (OnContextUpdate
      ⟨⟨[], kAsciiModeSwitchNoop, false, false, false, false, 0, true⟩,
        ⟨true, false, false, [], []⟩, []⟩).ctx.ascii_mode = false := by
  refine ⟨(inline_switch_subscription
    ⟨⟨[], kAsciiModeSwitchNoop, false, false, false, false, 0, false⟩,
      ⟨false, false, true, [0x61], []⟩, []⟩ true (by decide)).1, ?_⟩
  exact ((inline_switch_subscription
    ⟨⟨[], kAsciiModeSwitchNoop, false, false, false, false, 0, false⟩,
      ⟨false, false, true, [0x61], []⟩, []⟩ true (by decide)).2.2
    ⟨⟨[], kAsciiModeSwitchNoop, false, false, false, false, 0, true⟩,
      ⟨true, false, false, [], []⟩, []⟩ (by decide)).1

/-- A justified binding for `rest` is also justified for `e :: rest`. -/
theorem GoodBinding_cons (parse : String → Option (Nat × Nat)) (e : ConfigEntry)
    (rest : List ConfigEntry) (k : Nat) (st : AsciiModeSwitchStyle)
    (h : GoodBinding parse rest k st) : GoodBinding parse (e :: rest) k st := by
  obtain ⟨hn, e', he', hrest⟩ := h
  exact ⟨hn, e', List.mem_cons_of_mem _ he', hrest⟩

/-- Every lookup hit in the table built by `load_bindings` is either already in
the accumulator or justified by one of the processed entries. -/
theorem load_bindings_sound_aux (parse : String → Option (Nat × Nat))
    (entries : List ConfigEntry) :
    ∀ (dest : List (Nat × AsciiModeSwitchStyle)) (k : Nat)
      (st : AsciiModeSwitchStyle),
      bindingsFind (load_bindings parse entries dest) k = some st →
      bindingsFind dest k = some st ∨ GoodBinding parse entries k st := by
  induction entries with
  | nil =>
    intro dest k st h
    exact Or.inl h
  | cons e rest ih =>
    intro dest k st h
    unfold load_bindings at h
    rcases hev : e.value with _ | v
    · rw [hev] at h
      dsimp only at h
      rcases ih dest k st h with h1 | h1
      · exact Or.inl h1
      · exact Or.inr (GoodBinding_cons parse e rest k st h1)
    · rw [hev] at h
      dsimp only at h
      by_cases hns : styleFromRepr v = kAsciiModeSwitchNoop
      · rw [if_pos hns] at h
        rcases ih dest k st h with h1 | h1
        · exact Or.inl h1
        · exact Or.inr (GoodBinding_cons parse e rest k st h1)
      · rw [if_neg hns] at h
        rcases hp : parse e.key with _ | km
        · rw [hp] at h
          dsimp only at h
          rcases ih dest k st h with h1 | h1
          · exact Or.inl h1
          · exact Or.inr (GoodBinding_cons parse e rest k st h1)
        · rw [hp] at h
          dsimp only at h
          by_cases hm : km.2 ≠ 0
          · rw [if_pos hm] at h
            rcases ih dest k st h with h1 | h1
            · exact Or.inl h1
            · exact Or.inr (GoodBinding_cons parse e rest k st h1)
          · rw [if_neg hm] at h
            rcases ih ((km.1, styleFromRepr v) :: dest) k st h with h1 | h1
            · by_cases hk : km.1 = k
              · have hst : styleFromRepr v = st := by
                  simp [bindingsFind, List.find?_cons, hk] at h1
                  exact h1
                refine Or.inr ⟨hst ▸ hns, e, List.mem_cons_self e rest, v,
                  hev, hst, ?_⟩
                rw [hp]
                have hm0 : km.2 = 0 := not_not.mp hm
                rcases km with ⟨k1, m1⟩
                simp only at hk hm0
                rw [hk, hm0]
              · rw [bindingsFind] at h1
                rw [List.find?_cons] at h1
                have hbk : ((km.1, styleFromRepr v).1 == k) = false := by
                  simp [hk]
                rw [hbk] at h1
                exact Or.inl h1
            · exact Or.inr (GoodBinding_cons parse e rest k st h1)

/-- C8: every entry in the table built by `load_bindings` from an empty table
comes from a config entry whose key string parses with a zero modifier mask and
whose style name is recognized and not "noop", and it maps that parsed key code
to the named style. -/
theorem load_bindings_sound (parse : String → Option (Nat × Nat))
    (entries : List ConfigEntry) (k : Nat) (st : AsciiModeSwitchStyle)
    (h : bindingsFind (load_bindings parse entries []) k = some st) :
    GoodBinding parse entries k st := by
  rcases load_bindings_sound_aux parse entries [] k st h with h1 | h1
  · simp [bindingsFind] at h1
  · exact h1

/-- C8 witness: a one-entry config with a parseable unmodified key and the
"clear" style yields a justified table entry. -/
theorem load_bindings_sound_witness :
    GoodBinding (fun s => if s = "k" then some (5, 0) else none)
      [⟨"k", some "clear"⟩] 5 kAsciiModeSwitchClear :=
  load_bindings_sound (fun s => if s = "k" then some (5, 0) else none)
    [⟨"k", some "clear"⟩] 5 kAsciiModeSwitchClear (by decide)

/-- C10: with a caps-lock switch style configured and conventional caps lock,
any key event with the caps modifier asserted whose key code is not Caps_Lock
and which is not a shift+ctrl chord and has no alt/super is rejected, with the
whole state unchanged — tap toggling and the temporary-ASCII machine are never
reached. -/
theorem caps_conventional_rejects (now : Nat) (ke : KeyEvent)
    (s : AsciiComposerState)
    (h1 : s.self.caps_lock_switch_style ≠ kAsciiModeSwitchNoop)
    (h2 : s.self.good_old_caps_lock = true)
    (h3 : ke.caps = true) (h4 : ke.keycode ≠ XK_Caps_Lock)
    (h5 : ¬(ke.shift = true ∧ ke.ctrl = true))
    (h6 : ke.alt = false) (h7 : ke.super = false) :
    ProcessKeyEvent now ke s = (kRejected, s) := by
  simp [ProcessKeyEvent, ProcessCapsLock, h1, h2, h3, h4, h5, h6, h7]

/-- C10 witness: a shift press with the caps modifier asserted under
conventional caps lock and a configured Clear style is rejected. -/
theorem caps_conventional_rejects_witness :
    ProcessKeyEvent 0 ⟨XK_Shift_L, false, false, false, false, false, true⟩
      ⟨⟨[], kAsciiModeSwitchClear, true, false, false, false, 0, false⟩,
        ⟨false, false, false, [], []⟩, []⟩ =
      (kRejected,
        ⟨⟨[], kAsciiModeSwitchClear, true, false, false, false, 0, false⟩,
          ⟨false, false, false, [], []⟩, []⟩) :=
  caps_conventional_rejects 0 ⟨XK_Shift_L, false, false, false, false, false, true⟩
    ⟨⟨[], kAsciiModeSwitchClear, true, false, false, false, 0, false⟩,
      ⟨false, false, false, [], []⟩, []⟩
    (by decide) (by decide) (by decide) (by decide) (by decide) (by decide)
    (by decide)

/-- Pressing a bare shift key (no modifiers, no caps flag) while nothing is
tracked starts tracking and arms the 500 ms deadline, with no other change. -/
theorem shift_press_untracked (now : Nat) (s : AsciiComposerState) (kc : Nat)
    (hk : kc = XK_Shift_L ∨ kc = XK_Shift_R)
    (hs : s.self.shift_key_pressed = false)
    (hc : s.self.ctrl_key_pressed = false) :
    ProcessKeyEvent now ⟨kc, false, false, false, false, false, false⟩ s =
      (kNoop,
        { s with
            self.shift_key_pressed := true
            self.toggle_expired := now + 500 }) := by
  obtain ⟨⟨b, cls, go, twc, skp, ckp, te, conn⟩, ⟨am, ta, cp, inp, hist⟩, out⟩ := s
  dsimp only at hs hc
  subst hs
  subst hc
  rcases hk with hk | hk <;> subst hk <;>
    simp [ProcessKeyEvent, ProcessCapsLock, XK_Shift_L, XK_Shift_R,
      XK_Caps_Lock, XK_Eisu_toggle, XK_Control_L, XK_Control_R]

/-- C1 counterexample: a right-shift tap (press at 0 ms, release at 100 ms, no
other events) with ascii_mode initially true and a CommitText binding for
XK_Shift_R leaves `ascii_mode = false` — the tap forces native mode, not
`ascii_mode = true` as claimed. -/
theorem right_shift_tap_counterexample :
    ((ProcessKeyEvent 100 ⟨XK_Shift_R, true, false, false, false, false, false⟩
        (ProcessKeyEvent 0 ⟨XK_Shift_R, false, false, false, false, false, false⟩
          ⟨⟨[(XK_Shift_R, kAsciiModeSwitchCommitText)], kAsciiModeSwitchNoop,
              false, false, false, false, 0, false⟩,
            ⟨true, false, false, [], []⟩, []⟩).2).2).ctx.ascii_mode = false := by
  decide

/-- C1 amended: a right-shift tap (press then release before the 500 ms
deadline, no other key events, nothing tracked beforehand) always forces
`ascii_mode` to FALSE and applies the Noop switch style regardless of the
configured binding for that key code: the composition state, input buffer and
commit sink are untouched. -/
theorem right_shift_tap_forces_native (s : AsciiComposerState) (t0 t1 : Nat)
    (hs : s.self.shift_key_pressed = false)
    (hc : s.self.ctrl_key_pressed = false)
    (ht : t1 < t0 + 500) :
    (((ProcessKeyEvent t1 ⟨XK_Shift_R, true, false, false, false, false, false⟩
        (ProcessKeyEvent t0 ⟨XK_Shift_R, false, false, false, false, false, false⟩
          s).2).2).ctx.ascii_mode = false) ∧
    (((ProcessKeyEvent t1 ⟨XK_Shift_R, true, false, false, false, false, false⟩
        (ProcessKeyEvent t0 ⟨XK_Shift_R, false, false, false, false, false, false⟩
          s).2).2).ctx.temp_ascii = false) ∧
    (((ProcessKeyEvent t1 ⟨XK_Shift_R, true, false, false, false, false, false⟩
        (ProcessKeyEvent t0 ⟨XK_Shift_R, false, false, false, false, false, false⟩
          s).2).2).ctx.composing = s.ctx.composing) ∧
    (((ProcessKeyEvent t1 ⟨XK_Shift_R, true, false, false, false, false, false⟩
        (ProcessKeyEvent t0 ⟨XK_Shift_R, false, false, false, false, false, false⟩
          s).2).2).ctx.input = s.ctx.input) ∧
    (((ProcessKeyEvent t1 ⟨XK_Shift_R, true, false, false, false, false, false⟩
        (ProcessKeyEvent t0 ⟨XK_Shift_R, false, false, false, false, false, false⟩
          s).2).2).output = s.output) := by
  rw [shift_press_untracked t0 s XK_Shift_R (Or.inr rfl) hs hc]
  obtain ⟨⟨b, cls, go, twc, skp, ckp, te, conn⟩, ⟨am, ta, cp, inp, hist⟩, out⟩ := s
  cases cp <;>
    simp [ProcessKeyEvent, ProcessCapsLock, SwitchAsciiMode, TempAsciiOff,
      XK_Shift_R, XK_Shift_L, XK_Caps_Lock, XK_Eisu_toggle, XK_Control_L,
      XK_Control_R, ht]

/-- C1 amended witness: a concrete right-shift tap from ascii mode with a
CommitText binding ends in native mode with nothing committed. -/
theorem right_shift_tap_forces_native_witness :
    ((ProcessKeyEvent 100 ⟨XK_Shift_R, true, false, false, false, false, false⟩
        (ProcessKeyEvent 0 ⟨XK_Shift_R, false, false, false, false, false, false⟩
          ⟨⟨[(XK_Shift_R, kAsciiModeSwitchCommitText)], kAsciiModeSwitchNoop,
              false, false, false, false, 0, false⟩,
            ⟨true, true, true, [0x61], []⟩, []⟩).2).2).ctx.ascii_mode = false :=
  (right_shift_tap_forces_native
    ⟨⟨[(XK_Shift_R, kAsciiModeSwitchCommitText)], kAsciiModeSwitchNoop,
        false, false, false, false, 0, false⟩,
      ⟨true, true, true, [0x61], []⟩, []⟩ 0 100
    (by decide) (by decide) (by decide)).1

/-- C3 counterexample: conventional caps lock with a Clear style, ascii_mode
initially false, toggle_with_caps false; two caps-lock presses whose caps flags
alternate starting with true end with `ascii_mode = true`, not restored to
false as claimed. -/
theorem caps_alternation_counterexample :
    ((ProcessKeyEvent 1 ⟨XK_Caps_Lock, false, false, false, false, false, false⟩
        (ProcessKeyEvent 0 ⟨XK_Caps_Lock, false, false, false, false, false, true⟩
          ⟨⟨[], kAsciiModeSwitchClear, true, false, false, false, 0, false⟩,
            ⟨false, false, false, [], []⟩, []⟩).2).2).ctx.ascii_mode = true := by
  decide

/-- C3 amended: under conventional caps lock with a configured switch style,
two consecutive caps-lock presses whose caps flags alternate restore
`ascii_mode` to its original value provided the first press's caps flag equals
the original `ascii_mode` value (the polarity the platform convention
guarantees); this holds for any `toggle_with_caps` value. -/
theorem caps_alternation (s : AsciiComposerState) (c : Bool) (t1 t2 : Nat)
    (hg : s.self.good_old_caps_lock = true)
    (hst : s.self.caps_lock_switch_style ≠ kAsciiModeSwitchNoop)
    (hc : c = s.ctx.ascii_mode) :
    ((ProcessKeyEvent t2 ⟨XK_Caps_Lock, false, false, false, false, false, !c⟩
        (ProcessKeyEvent t1 ⟨XK_Caps_Lock, false, false, false, false, false, c⟩
          s).2).2).ctx.ascii_mode = s.ctx.ascii_mode := by
  obtain ⟨⟨b, cls, go, twc, skp, ckp, te, conn⟩, ⟨am, ta, cp, inp, hist⟩, out⟩ := s
  dsimp only at hg hc hst ⊢
  subst hg
  subst hc
  rcases cls with _ | _ | _ | _ | _
  · exact absurd rfl hst
  all_goals
    cases c <;> cases twc <;> cases cp <;>
      simp [ProcessKeyEvent, ProcessCapsLock, SwitchAsciiMode, TempAsciiOff,
        Context.Commit, Context.Clear, Context.ConfirmCurrentSelection,
        Context.ClearNonConfirmedComposition, XK_Caps_Lock, XK_Eisu_toggle,
        XK_Shift_L, XK_Shift_R, XK_Control_L, XK_Control_R]

/-- C3 amended witness: starting in native mode with caps flag false on the
first press, two alternating caps presses restore `ascii_mode = false`. -/
theorem caps_alternation_witness :
    ((ProcessKeyEvent 1 ⟨XK_Caps_Lock, false, false, false, false, false, true⟩
        (ProcessKeyEvent 0 ⟨XK_Caps_Lock, false, false, false, false, false, false⟩
          ⟨⟨[], kAsciiModeSwitchClear, true, false, false, false, 0, false⟩,
            ⟨false, false, false, [], []⟩, []⟩).2).2).ctx.ascii_mode = false :=
  caps_alternation
    ⟨⟨[], kAsciiModeSwitchClear, true, false, false, false, 0, false⟩,
      ⟨false, false, false, [], []⟩, []⟩ false 0 1
    (by decide) (by decide) (by decide)

/-- C4: a left-shift tap (press then release, no other key events, nothing
tracked beforehand, no ctrl/alt/super/caps) with a binding configured for
XK_Shift_L toggles `ascii_mode` exactly once when the release beats the 500 ms
deadline, and toggles nothing when the release arrives at or after the
deadline. -/
theorem left_shift_tap_toggles (s : AsciiComposerState) (t0 t1 : Nat)
    (st : AsciiModeSwitchStyle)
    (hs : s.self.shift_key_pressed = false)
    (hc : s.self.ctrl_key_pressed = false)
    (hb : bindingsFind s.self.bindings XK_Shift_L = some st) :
    (t1 < t0 + 500 →
      ((ProcessKeyEvent t1 ⟨XK_Shift_L, true, false, false, false, false, false⟩
          (ProcessKeyEvent t0
            ⟨XK_Shift_L, false, false, false, false, false, false⟩
            s).2).2).ctx.ascii_mode = !s.ctx.ascii_mode) ∧
    (t0 + 500 ≤ t1 →
      ((ProcessKeyEvent t1 ⟨XK_Shift_L, true, false, false, false, false, false⟩
          (ProcessKeyEvent t0
            ⟨XK_Shift_L, false, false, false, false, false, false⟩
            s).2).2).ctx.ascii_mode = s.ctx.ascii_mode) := by
  rw [shift_press_untracked t0 s XK_Shift_L (Or.inl rfl) hs hc]
  obtain ⟨⟨b, cls, go, twc, skp, ckp, te, conn⟩, ⟨am, ta, cp, inp, hist⟩, out⟩ := s
  dsimp only at hb ⊢
  have hb2 : bindingsFind b 0xffe1 = some st := hb
  constructor
  · intro ht
    rcases st with _ | _ | _ | _ | _ <;> cases cp <;> cases am <;>
      simp [ProcessKeyEvent, ProcessCapsLock, SwitchAsciiMode, TempAsciiOff,
        ToggleAsciiModeWithKey, hb2, Context.Commit, Context.Clear,
        Context.ConfirmCurrentSelection, Context.ClearNonConfirmedComposition,
        XK_Shift_L, XK_Shift_R, XK_Caps_Lock, XK_Eisu_toggle, XK_Control_L,
        XK_Control_R, ht]
  · intro ht
    have hnt : ¬(t1 < t0 + 500) := Nat.not_lt.mpr ht
    simp [ProcessKeyEvent, ProcessCapsLock, XK_Shift_L, XK_Shift_R,
      XK_Caps_Lock, XK_Eisu_toggle, XK_Control_L, XK_Control_R, hnt]

/-- C4 witness: a concrete in-window left-shift tap with an InlineAscii binding
toggles `ascii_mode` from false to true, and a concrete late release (600 ms)
leaves it false. -/
theorem left_shift_tap_toggles_witness :
    ((ProcessKeyEvent 100 ⟨XK_Shift_L, true, false, false, false, false, false⟩
        (ProcessKeyEvent 0 ⟨XK_Shift_L, false, false, false, false, false, false⟩
          ⟨⟨[(XK_Shift_L, kAsciiModeSwitchInline)], kAsciiModeSwitchNoop,
              false, false, false, false, 0, false⟩,
            ⟨false, false, false, [], []⟩, []⟩).2).2).ctx.ascii_mode = true ∧
    ((ProcessKeyEvent 600 ⟨XK_Shift_L, true, false, false, false, false, false⟩
        (ProcessKeyEvent 0 ⟨XK_Shift_L, false, false, false, false, false, false⟩
          ⟨⟨[(XK_Shift_L, kAsciiModeSwitchInline)], kAsciiModeSwitchNoop,
              false, false, false, false, 0, false⟩,
            ⟨false, false, false, [], []⟩, []⟩).2).2).ctx.ascii_mode = false :=
  ⟨(left_shift_tap_toggles
      ⟨⟨[(XK_Shift_L, kAsciiModeSwitchInline)], kAsciiModeSwitchNoop,
          false, false, false, false, 0, false⟩,
        ⟨false, false, false, [], []⟩, []⟩ 0 100 kAsciiModeSwitchInline
      (by decide) (by decide) (by decide)).1 (by decide),
    (left_shift_tap_toggles
      ⟨⟨[(XK_Shift_L, kAsciiModeSwitchInline)], kAsciiModeSwitchNoop,
          false, false, false, false, 0, false⟩,
        ⟨false, false, false, [], []⟩, []⟩ 0 600 kAsciiModeSwitchInline
      (by decide) (by decide) (by decide)).2 (by decide)⟩

end Rime
